import Mathlib

/-!
Verification development for the soulshark catalog-synchronization and
download-task tracking core.

The definitions below are shallow embeddings of the TypeScript source:
* `src/lib/spotify.ts` — paginated sweeps (`getAllLikedTracks`,
  `getAllPlaylistTracks`, `getAllAlbumTracks`) and the token / singleton
  lifecycle (`initializeSpotify`, `resetSpotifyApi`);
* the `SpotifyProvider` context module — the per-collection caches
  (`fetchLikedTracks`, `fetchPlaylistTracks`, `fetchAlbumTracks`,
  `logout`);
* `src/components/downloads/DownloadsPage.tsx` — the event listeners that
  apply download lifecycle events and raw helper stdout lines.

Remote paged endpoints are modelled as oracles `Nat → Nat → Except ε (Page σ)`
taking (limit, offset); the deterministic list-backed oracle `pageOracle`
realises the standard paged-REST semantics (items = drop offset, take limit;
total = length).  Each sweep returns, besides its outcome, the list of
(limit, offset) page requests it issued in order (probe included) and the
list of (loaded, total) progress-callback invocations, so that network-call
counts are part of the model.
-/

namespace Soulshark

/-- Artist projection `{ id, name }` as used by the SpotifyTrack interface. -/
structure ArtistRef where
  id : String
  name : String
deriving DecidableEq

/-- Image record (url field only, as in the SpotifyTrack album images). -/
structure ImageRef where
  url : String
deriving DecidableEq

/-- Album projection embedded in a track (`spotifyTypes.ts` SpotifyTrack.album). -/
structure AlbumRef where
  id : String
  name : String
  images : List ImageRef
deriving DecidableEq

/-- `SpotifyTrack` from `src/lib/spotifyTypes.ts`. -/
structure Track where
  id : String
  name : String
  artists : List ArtistRef
  album : AlbumRef
  duration_ms : Nat
deriving DecidableEq

/-- Saved-track wrapper returned by the liked-tracks endpoint; the sweep
projects out `item.track`. -/
structure SavedTrackItem where
  track : Track
deriving DecidableEq

/-- Playlist-item wrapper returned by `getPlaylistItems`; the cache layer
projects out `item.track`. -/
structure PlaylistItem where
  track : Track
deriving DecidableEq

/-- Simplified track returned by the album-tracks endpoint (it carries no
album field; the cache layer decorates it with the album metadata). -/
structure AlbumTrack where
  id : String
  name : String
  artists : List ArtistRef
  duration_ms : Nat
deriving DecidableEq

/-- Descriptive album record returned by `getAlbum` (the fields used by
`fetchAlbumTracks`: name and images). -/
structure AlbumMeta where
  name : String
  images : List ImageRef
deriving DecidableEq

/-- One page of a paged endpoint: `{ items, total }` (offset and limit of the
response are not read by the sweeps, so they are omitted). -/
structure Page (σ : Type) where
  items : List σ
  total : Nat
deriving DecidableEq

/-- The deterministic list-backed remote endpoint: `page limit offset`
returns the slice of the remote sequence starting at `offset` of length at
most `limit`, together with the total length.  This realises the paged-REST
contract of section 6 of the spec and never fails. -/
def pageOracle {ε σ : Type} (remote : List σ) : Nat → Nat → Except ε (Page σ) :=
  fun limit offset => .ok ⟨(remote.drop offset).take limit, remote.length⟩

/-- The batch loop shared by `getAllLikedTracks` / `getAllPlaylistTracks` /
`getAllAlbumTracks` (`for (let i = 0; i < batchCount; i++) …`): for each
index it requests the page at offset `i * aB` with limit `aB`, appends the
(projected) items, and records a progress callback `(itemsSoFar, total)`.
A failing page request aborts the loop with that error (the `await` throw),
after having issued the failing request.  `proj` is `item => item.track` for
the liked sweep and the identity for the playlist and album sweeps. -/
def batchLoop {ε σ τ : Type} (pageO : Nat → Nat → Except ε (Page σ)) (proj : σ → τ)
    (aB total : Nat) :
    List Nat → List τ → List (Nat × Nat) → List (Nat × Nat) →
    Except ε (List τ) × List (Nat × Nat) × List (Nat × Nat)
  | [], acc, reqs, progs => (.ok acc, reqs, progs)
  | i :: rest, acc, reqs, progs =>
    match pageO aB (i * aB) with
    | .error e => (.error e, reqs ++ [(aB, i * aB)], progs)
    | .ok page =>
      let acc2 := acc ++ page.items.map proj
      batchLoop pageO proj aB total rest acc2 (reqs ++ [(aB, i * aB)])
        (progs ++ [(acc2.length, total)])

/-- `getAllLikedTracks` (`src/lib/spotify.ts`): probe the total through
`getLikedTracksCount` (a `savedTracks(1, 0)` request), return `[]` when it is
zero, otherwise sweep `ceil(total / min(batchSize, 50))` pages of size
`min(batchSize, 50)` in increasing offset order, projecting `item.track`.
Returns (outcome, page requests issued in order, progress callbacks). -/
def getAllLikedTracks {ε : Type} (pageO : Nat → Nat → Except ε (Page SavedTrackItem))
    (batchSize : Nat) :
    Except ε (List Track) × List (Nat × Nat) × List (Nat × Nat) :=
  match pageO 1 0 with
  | .error e => (.error e, [(1, 0)], [])
  | .ok probe =>
    let totalTracks := probe.total
    if totalTracks = 0 then (.ok [], [(1, 0)], [])
    else
      let actualBatchSize := min batchSize 50
      let batchCount := (totalTracks + actualBatchSize - 1) / actualBatchSize
      batchLoop pageO (fun item => item.track) actualBatchSize totalTracks
        (List.range batchCount) [] [(1, 0)] []

/-- `getAllPlaylistTracks` (`src/lib/spotify.ts`): probe with a one-item
`getPlaylistItems` page, return `[]` when total is zero, otherwise sweep
pages of size `min(batchSize, 100)` in increasing offset order, pushing the
raw playlist items. -/
def getAllPlaylistTracks {ε : Type} (pageO : Nat → Nat → Except ε (Page PlaylistItem))
    (batchSize : Nat) :
    Except ε (List PlaylistItem) × List (Nat × Nat) × List (Nat × Nat) :=
  match pageO 1 0 with
  | .error e => (.error e, [(1, 0)], [])
  | .ok firstPage =>
    let total := firstPage.total
    if total = 0 then (.ok [], [(1, 0)], [])
    else
      let actualBatchSize := min batchSize 100
      let batchCount := (total + actualBatchSize - 1) / actualBatchSize
      batchLoop pageO (fun item => item) actualBatchSize total
        (List.range batchCount) [] [(1, 0)] []

/-- `getAllAlbumTracks` (`src/lib/spotify.ts`): probe with a one-item
`albums.tracks` page, return `[]` when total is zero, otherwise sweep pages
of size `min(batchSize, 50)` in increasing offset order, pushing the raw
album tracks. -/
def getAllAlbumTracks {ε : Type} (pageO : Nat → Nat → Except ε (Page AlbumTrack))
    (batchSize : Nat) :
    Except ε (List AlbumTrack) × List (Nat × Nat) × List (Nat × Nat) :=
  match pageO 1 0 with
  | .error e => (.error e, [(1, 0)], [])
  | .ok firstPage =>
    let total := firstPage.total
    if total = 0 then (.ok [], [(1, 0)], [])
    else
      let actualBatchSize := min batchSize 50
      let batchCount := (total + actualBatchSize - 1) / actualBatchSize
      batchLoop pageO (fun item => item) actualBatchSize total
        (List.range batchCount) [] [(1, 0)] []

/-!
Cache layer: the `SpotifyProvider` context module.  The liked-tracks cache is
a nullable React state (`likedTracks : SpotifyTrack[] | null`; note that an
empty array is truthy in JS, so an empty stored entry is a cache hit), while
the playlist and album caches are `Map<string, SpotifyTrack[]>` objects,
modelled as functions from keys to optional entries (`Map.has` = `isSome`,
`Map.set` = pointwise update).
-/

/-- The cache state owned by `SpotifyProvider`. -/
structure CacheState where
  likedTracks : Option (List Track)
  playlistTracksCache : String → Option (List Track)
  albumTracksCache : String → Option (List Track)

/-- `fetchLikedTracks` from the `SpotifyProvider` module: on a cache hit
(`!forceRefresh && likedTracks`) return the stored entry with no network
request; otherwise run `getAllLikedTracks(50)`, store the result on success,
and rethrow its error (leaving the state untouched) on failure.
Returns (outcome, state after the call, page requests issued). -/
def fetchLikedTracks {ε : Type} (pageO : Nat → Nat → Except ε (Page SavedTrackItem))
    (forceRefresh : Bool) (st : CacheState) :
    Except ε (List Track) × CacheState × List (Nat × Nat) :=
  match forceRefresh, st.likedTracks with
  | false, some tracks => (.ok tracks, st, [])
  | _, _ =>
    match getAllLikedTracks pageO 50 with
    | (.ok tracks, reqs, _) => (.ok tracks, { st with likedTracks := some tracks }, reqs)
    | (.error e, reqs, _) => (.error e, st, reqs)

/-- `fetchPlaylistTracks` from the `SpotifyProvider` module: on a cache hit
for `playlistId` return the stored entry; otherwise run
`getAllPlaylistTracks(playlistId)` (default batch size 100), project
`item.track`, store on success, rethrow on failure.  `pageO` is the paged
endpoint of that playlist. -/
def fetchPlaylistTracks {ε : Type} (pageO : Nat → Nat → Except ε (Page PlaylistItem))
    (playlistId : String) (forceRefresh : Bool) (st : CacheState) :
    Except ε (List Track) × CacheState × List (Nat × Nat) :=
  match forceRefresh, st.playlistTracksCache playlistId with
  | false, some tracks => (.ok tracks, st, [])
  | _, _ =>
    match getAllPlaylistTracks pageO 100 with
    | (.ok items, reqs, _) =>
      let tracks := items.map (fun item => item.track)
      (.ok tracks,
       { st with playlistTracksCache :=
           fun k => if k = playlistId then some tracks else st.playlistTracksCache k },
       reqs)
    | (.error e, reqs, _) => (.error e, st, reqs)

/-- `fetchAlbumTracks` from the `SpotifyProvider` module: on a cache hit for
`albumId` return the stored entry; otherwise run `getAllAlbumTracks(albumId)`
(default batch size 50), then the decorating `getAlbum(albumId)` metadata
read (`metaO`), build the simplified track records, store on success, and
rethrow (leaving the state untouched) when either call fails. -/
def fetchAlbumTracks {ε : Type} (pageO : Nat → Nat → Except ε (Page AlbumTrack))
    (metaO : Except ε AlbumMeta) (albumId : String) (forceRefresh : Bool)
    (st : CacheState) :
    Except ε (List Track) × CacheState × List (Nat × Nat) :=
  match forceRefresh, st.albumTracksCache albumId with
  | false, some tracks => (.ok tracks, st, [])
  | _, _ =>
    match getAllAlbumTracks pageO 50 with
    | (.ok albumTracks, reqs, _) =>
      match metaO with
      | .error e => (.error e, st, reqs)
      | .ok albumResponse =>
        let tracks := albumTracks.map (fun track =>
          { id := track.id
            name := track.name
            artists := track.artists
            album := { id := albumId, name := albumResponse.name, images := albumResponse.images }
            duration_ms := track.duration_ms : Track })
        (.ok tracks,
         { st with albumTracksCache :=
             fun k => if k = albumId then some tracks else st.albumTracksCache k },
         reqs)
    | (.error e, reqs, _) => (.error e, st, reqs)

/-- `clearLikedTracksCache` from the `SpotifyProvider` module. -/
def clearLikedTracksCache (st : CacheState) : CacheState :=
  { st with likedTracks := none }

/-!
Token layer: `initializeSpotify` / `resetSpotifyApi` from
`src/lib/spotify.ts` and `logout` from the `SpotifyProvider` module.

The persisted credential record lives behind the `get_credentials` /
`save_credentials` Tauri commands; `refresh_spotify_token` is a Tauri
command of this repository whose Rust implementation is not under `src/`.
Modelled from the spec: token refresh is a standard OAuth2 refresh-token
exchange producing a new access/refresh pair and an expiry (§6); on success
it persists the new pair (the TypeScript code re-reads `get_credentials`
afterwards and sees the refreshed values), and on failure it raises; §6
ascribes no side effect on the persisted credentials to a failed exchange,
so a failed refresh leaves them unchanged.  The command's behavior is the
`refreshOutcome` parameter: `some updated` means the exchange succeeded and
the store now holds `updated`; `none` means it threw.
-/

/-- The persisted `Credentials` record (`get_credentials`). -/
structure Credentials where
  soulseek_password : Option String
  spotify_client_secret : Option String
  spotify_access_token : Option String
  spotify_refresh_token : Option String
  spotify_token_expires_at : Option Int
deriving DecidableEq

/-- JS truthiness of a nullable string: `null` and `""` are falsy. -/
def truthy : Option String → Bool
  | none => false
  | some s => !(s == "")

/-- The expiry check of `initializeSpotify`:
`credentials.spotify_token_expires_at ? expires_at < Date.now() : true`.
A missing timestamp is treated as expired, and so is a stored `0` (falsy in
JS, and in any case smaller than any positive clock). -/
def isTokenExpired (expiresAt : Option Int) (now : Int) : Bool :=
  match expiresAt with
  | none => true
  | some t => if t == 0 then true else decide (t < now)

/-- The handle built by `SpotifyApi.withAccessToken` (the fields the source
passes to the SDK). -/
structure SpotifyApiHandle where
  client_id : String
  access_token : String
  token_type : String
  expires_in : Nat
  refresh_token : String
deriving DecidableEq

/-- `SpotifyApi.withAccessToken(clientId, { access_token, "Bearer", 3600,
refresh_token || "" })` as called by `initializeSpotify`. -/
def withAccessToken (clientId : String) (c : Credentials) : SpotifyApiHandle :=
  { client_id := clientId
    access_token := c.spotify_access_token.getD ""
    token_type := "Bearer"
    expires_in := 3600
    refresh_token := c.spotify_refresh_token.getD "" }

/-- Result of one `initializeSpotify` call: the returned handle (or `null`),
the module singleton `spotifyApiInstance` after the call, the persisted
credentials after the call, and whether `refresh_spotify_token` was
invoked. -/
structure InitResult where
  result : Option SpotifyApiHandle
  apiSingleton : Option SpotifyApiHandle
  storedAfter : Credentials
  refreshAttempted : Bool
deriving DecidableEq

/-- `initializeSpotify` (`src/lib/spotify.ts`).  `apiSingleton` is the
module-level `spotifyApiInstance` at entry; when it is set it is returned
at once with no credential read, no expiry check and no refresh.  Otherwise
the stored credentials are read: a falsy access token yields `null`; an
expired token with a truthy refresh token triggers the refresh command
(whose failure is caught and turned into `null`); an expired token without
one yields `null`; an unexpired token is wrapped and memoised. -/
def initializeSpotify (clientId : String) (stored : Credentials)
    (refreshOutcome : Option Credentials) (now : Int)
    (apiSingleton : Option SpotifyApiHandle) : InitResult :=
  if apiSingleton.isSome then
    ⟨apiSingleton, apiSingleton, stored, false⟩
  else if truthy stored.spotify_access_token = false then
    ⟨none, none, stored, false⟩
  else
    let isExpired := isTokenExpired stored.spotify_token_expires_at now
    if isExpired && truthy stored.spotify_refresh_token then
      match refreshOutcome with
      | none => ⟨none, none, stored, true⟩
      | some updatedCredentials =>
        if truthy updatedCredentials.spotify_access_token = false then
          ⟨none, none, updatedCredentials, true⟩
        else
          let spotify := withAccessToken clientId updatedCredentials
          ⟨some spotify, some spotify, updatedCredentials, true⟩
    else if isExpired then
      ⟨none, none, stored, false⟩
    else
      let spotify := withAccessToken clientId stored
      ⟨some spotify, some spotify, stored, false⟩

/-- The provider-level session state touched by `logout`: the persisted
credentials, the module singleton (`spotifyApiInstance`), and the React
state pair (`isAuthenticated`, `spotifyApi`). -/
structure ProviderState where
  stored : Credentials
  apiSingleton : Option SpotifyApiHandle
  isAuthenticated : Bool
  spotifyApi : Option SpotifyApiHandle
deriving DecidableEq

/-- The credential record written by `logout`: the three Spotify token
fields nulled, everything else kept. -/
def clearSpotifyTokens (c : Credentials) : Credentials :=
  { c with
    spotify_access_token := none
    spotify_refresh_token := none
    spotify_token_expires_at := none }

/-- `logout` from the `SpotifyProvider` module.  The body is one `try`
block: read the credentials, `save_credentials` with the Spotify tokens
nulled, then `resetSpotifyApi()` and the two state updates; the `catch`
only logs, so the caller never sees an error.  `persistenceFails` says
whether the persistence I/O (`get_credentials` / `save_credentials`) threw;
when it did, the exception skips straight to the `catch`, so none of the
in-memory updates run and the state is returned unchanged. -/
def logout (persistenceFails : Bool) (st : ProviderState) : ProviderState :=
  if persistenceFails then
    st
  else
    { stored := clearSpotifyTokens st.stored
      apiSingleton := none
      isAuthenticated := false
      spotifyApi := none }

/-!
Downloads layer: the event listeners of
`src/components/downloads/DownloadsPage.tsx`.
-/

/-- The `status` field of a `Download`. -/
inductive DownloadStatus where
  | queued
  | searching
  | inProgress
  | completed
  | failed (reason : String)
  | canceled
deriving DecidableEq

/-- The `Download` record of `DownloadsPage.tsx`. -/
structure Download where
  id : String
  title : String
  artist : Option String
  album : Option String
  query : String
  started_at : Nat
  status : DownloadStatus
  progress : Option Rat
  file_path : Option String
  is_playlist : Bool
  total_tracks : Option Nat
  completed_tracks : Option Nat
  failed_tracks : Option Nat
  console_logs : List String
deriving DecidableEq

/-- The non-terminal test used by the `sldl:stdout` listener:
`status === "Queued" || status === "Searching" || status === "InProgress"`. -/
def isActiveStatus : DownloadStatus → Bool
  | .queued => true
  | .searching => true
  | .inProgress => true
  | _ => false

/-- The shared body of the `download:progress`, `download:completed`,
`download:failed` and `download:canceled` listeners: replace the download
whose id equals the payload's id with the payload, leave every other
download unchanged. -/
def applyDownloadEvent (payload : Download) (downloads : List Download) : List Download :=
  downloads.map (fun download => if download.id = payload.id then payload else download)

/-- The `download:started` listener: prepend the payload. -/
def applyStartedEvent (payload : Download) (downloads : List Download) : List Download :=
  payload :: downloads

/-- The `sldl:stdout` listener: append the line to the console log of every
download still in a non-terminal status, leave terminal downloads
unchanged. -/
def applyStdoutEvent (line : String) (downloads : List Download) : List Download :=
  downloads.map (fun download =>
    if isActiveStatus download.status then
      { download with console_logs := download.console_logs ++ [line] }
    else download)

/-!
Pagination lemmas.
-/

/-- Splitting a list into `n` consecutive chunks of size `b` starting at the
offsets `0, b, 2b, …` and concatenating them gives the list back, provided
`n` chunks suffice to cover it. -/
theorem flatten_chunks {σ : Type} (b : Nat) :
    ∀ (n : Nat) (l : List σ), l.length ≤ n * b →
    ((List.range n).map (fun i => (l.drop (i * b)).take b)).flatten = l := by
  intro n
  induction n with
  | zero =>
    intro l hl
    simp only [Nat.zero_mul, Nat.le_zero] at hl
    simp [List.length_eq_zero.mp hl]
  | succ n ih =>
    intro l hl
    rw [List.range_succ_eq_map]
    simp only [List.map_cons, List.map_map, List.flatten_cons, Nat.zero_mul, List.drop_zero]
    have htail : (List.range n).map ((fun i => (l.drop (i * b)).take b) ∘ Nat.succ)
        = (List.range n).map (fun i => ((l.drop b).drop (i * b)).take b) := by
      apply List.map_congr_left
      intro i _
      have : (l.drop b).drop (i * b) = l.drop (Nat.succ i * b) := by
        rw [List.drop_drop, Nat.succ_mul, Nat.add_comm]
      simp [Function.comp, this]
    rw [Nat.succ_mul] at hl
    rw [htail, ih (l.drop b) (by rw [List.length_drop]; omega)]
    exact List.take_append_drop b l

/-- `t ≤ ceil(t / b) * b` for the Nat ceiling `(t + b - 1) / b`. -/
theorem le_ceil_mul (t b : Nat) (hb : 0 < b) : t ≤ ((t + b - 1) / b) * b := by
  rcases Nat.eq_zero_or_pos t with ht | ht
  · simp [ht]
  · have h1 : (t + b - 1) / b * b ≤ t + b - 1 := Nat.div_mul_le_self _ _
    have h2 : t + b - 1 < ((t + b - 1) / b + 1) * b :=
      (Nat.div_lt_iff_lt_mul hb).mp (Nat.lt_succ_self ((t + b - 1) / b))
    have h3 : ((t + b - 1) / b + 1) * b = (t + b - 1) / b * b + b := by ring
    rw [h3] at h2
    have key : ∀ X : Nat, X ≤ t + b - 1 → t + b - 1 < X + b → t ≤ X := by
      intro X hx1 hx2
      omega
    exact key _ h1 h2

/-- On the deterministic list-backed oracle the batch loop never fails: it
returns the accumulated items followed by the projected page slices, and
records exactly one `(aB, i * aB)` request per index, in order. -/
theorem batchLoop_pageOracle {ε σ τ : Type} (remote : List σ) (proj : σ → τ)
    (aB total : Nat) :
    ∀ (idxs : List Nat) (acc : List τ) (reqs progs : List (Nat × Nat)),
    (batchLoop (ε := ε) (pageOracle remote) proj aB total idxs acc reqs progs).1
        = .ok (acc ++ (idxs.map (fun i => ((remote.drop (i * aB)).take aB).map proj)).flatten)
    ∧ (batchLoop (ε := ε) (pageOracle remote) proj aB total idxs acc reqs progs).2.1
        = reqs ++ idxs.map (fun i => (aB, i * aB)) := by
  intro idxs
  induction idxs with
  | nil =>
    intro acc reqs progs
    simp [batchLoop]
  | cons i rest ih =>
    intro acc reqs progs
    simp only [batchLoop, pageOracle]
    refine ⟨?_, ?_⟩
    · rw [(ih _ _ _).1]
      simp
    · rw [(ih _ _ _).2]
      simp

/-- Common shape of the three full sweeps on the deterministic oracle with a
nonempty remote collection: the outcome is the whole (projected) remote
sequence and the requests are the probe followed by one batch page per chunk
at offsets `0, aB, 2·aB, …`. -/
theorem sweep_ok {ε σ τ : Type} (remote : List σ) (proj : σ → τ) (B maxB : Nat)
    (hB : 0 < B) (hmaxB : 0 < maxB) :
    (batchLoop (ε := ε) (pageOracle remote) proj (min B maxB) remote.length
        (List.range ((remote.length + min B maxB - 1) / min B maxB)) [] [(1, 0)] []).1
      = .ok (remote.map proj)
    ∧ (batchLoop (ε := ε) (pageOracle remote) proj (min B maxB) remote.length
        (List.range ((remote.length + min B maxB - 1) / min B maxB)) [] [(1, 0)] []).2.1
      = (1, 0) :: (List.range ((remote.length + min B maxB - 1) / min B maxB)).map
          (fun i => (min B maxB, i * min B maxB)) := by
  have haB : 0 < min B maxB := lt_min hB hmaxB
  obtain ⟨h1, h2⟩ := batchLoop_pageOracle (ε := ε) remote proj (min B maxB) remote.length
    (List.range ((remote.length + min B maxB - 1) / min B maxB)) [] [(1, 0)] []
  refine ⟨?_, ?_⟩
  · rw [h1]
    have hmaps : (List.range ((remote.length + min B maxB - 1) / min B maxB)).map
          (fun i => ((remote.drop (i * min B maxB)).take (min B maxB)).map proj)
        = ((List.range ((remote.length + min B maxB - 1) / min B maxB)).map
            (fun i => (remote.drop (i * min B maxB)).take (min B maxB))).map (List.map proj) := by
      rw [List.map_map]
      rfl
    rw [hmaps, ← List.map_flatten,
      flatten_chunks (min B maxB) _ remote (le_ceil_mul remote.length (min B maxB) haB)]
    simp
  · rw [h2]
    simp

/-!
Concrete demonstration data used by the witnesses.
-/

/-- Sample track. -/
def demoTrack : Track :=
  ⟨"t1", "Track One", [⟨"a1", "Artist"⟩], ⟨"al1", "Album", [⟨"u"⟩]⟩, 200⟩

/-- Sample liked-tracks remote collection (three saved items). -/
def demoSaved : List SavedTrackItem :=
  [⟨demoTrack⟩, ⟨{ demoTrack with id := "t2" }⟩, ⟨{ demoTrack with id := "t3" }⟩]

/-- Sample playlist remote collection. -/
def demoPlaylistItems : List PlaylistItem :=
  [⟨demoTrack⟩]

/-- Sample album remote collection. -/
def demoAlbumTracks : List AlbumTrack :=
  [⟨"t1", "Track One", [⟨"a1", "Artist"⟩], 200⟩]

/-- Sample album metadata. -/
def demoMeta : AlbumMeta := ⟨"Album", [⟨"u"⟩]⟩

/-- C2: for every total `T > 0` and requested batch size `B > 0`, a full
sweep issues exactly `ceil(T / min(B, maxBatchForKind))` batch page requests
after the one-item probe (`maxBatchForKind` = 50 for liked and album tracks,
100 for playlist items), at the strictly increasing offsets
`i * min(B, maxBatchForKind)`, and the concatenation of the pages' items in
request order — which is what the sweep returns and the cache stores — is
the whole remote sequence in order. -/
theorem c2_full_sweep_requests {ε : Type} (rl : List SavedTrackItem)
    (rp : List PlaylistItem) (ra : List AlbumTrack) (B : Nat)
    (hB : 0 < B) (hl : 0 < rl.length) (hp : 0 < rp.length) (ha : 0 < ra.length) :
    ((getAllLikedTracks (ε := ε) (pageOracle rl) B).1
        = .ok (rl.map (fun item => item.track)) ∧
      (getAllLikedTracks (ε := ε) (pageOracle rl) B).2.1
        = (1, 0) :: (List.range ((rl.length + min B 50 - 1) / min B 50)).map
            (fun i => (min B 50, i * min B 50))) ∧
    ((getAllPlaylistTracks (ε := ε) (pageOracle rp) B).1 = .ok rp ∧
      (getAllPlaylistTracks (ε := ε) (pageOracle rp) B).2.1
        = (1, 0) :: (List.range ((rp.length + min B 100 - 1) / min B 100)).map
            (fun i => (min B 100, i * min B 100))) ∧
    ((getAllAlbumTracks (ε := ε) (pageOracle ra) B).1 = .ok ra ∧
      (getAllAlbumTracks (ε := ε) (pageOracle ra) B).2.1
        = (1, 0) :: (List.range ((ra.length + min B 50 - 1) / min B 50)).map
            (fun i => (min B 50, i * min B 50))) := by
  refine ⟨?_, ?_, ?_⟩
  · have h := sweep_ok (ε := ε) rl (fun item => item.track) B 50 hB (by norm_num)
    have hne : ¬ rl.length = 0 := by omega
    simp only [getAllLikedTracks, pageOracle]
    rw [if_neg hne]
    exact h
  · have h := sweep_ok (ε := ε) rp (fun item => item) B 100 hB (by norm_num)
    have hne : ¬ rp.length = 0 := by omega
    simp only [getAllPlaylistTracks, pageOracle]
    rw [if_neg hne]
    simpa using h
  · have h := sweep_ok (ε := ε) ra (fun item => item) B 50 hB (by norm_num)
    have hne : ¬ ra.length = 0 := by omega
    simp only [getAllAlbumTracks, pageOracle]
    rw [if_neg hne]
    simpa using h

/-- Witness for `c2_full_sweep_requests` at a concrete input: three liked
items swept with requested batch size 2. -/
theorem c2_full_sweep_requests_witness :
    (0 < 2 ∧ 0 < demoSaved.length) ∧
    (getAllLikedTracks (ε := Unit) (pageOracle demoSaved) 2).1
      = .ok (demoSaved.map (fun item => item.track)) :=
  ⟨⟨by decide, by decide⟩,
    ((c2_full_sweep_requests (ε := Unit) demoSaved demoPlaylistItems demoAlbumTracks 2
      (by decide) (by decide) (by decide) (by decide)).1).1⟩

/-- C6: for every collection whose probe reports `total = 0`, the sweep
returns an empty sequence after exactly one probe request — no batch pages,
no progress callbacks — and a (force-refreshed) fetch stores that empty
sequence in the cache while issuing only the probe. -/
theorem c6_zero_total {ε : Type} (rl : List SavedTrackItem) (rp : List PlaylistItem)
    (ra : List AlbumTrack) (B : Nat) (meta : AlbumMeta) (pid aid : String)
    (st : CacheState)
    (hl : rl.length = 0) (hp : rp.length = 0) (ha : ra.length = 0) :
    getAllLikedTracks (ε := ε) (pageOracle rl) B = (.ok [], [(1, 0)], []) ∧
    getAllPlaylistTracks (ε := ε) (pageOracle rp) B = (.ok [], [(1, 0)], []) ∧
    getAllAlbumTracks (ε := ε) (pageOracle ra) B = (.ok [], [(1, 0)], []) ∧
    fetchLikedTracks (ε := ε) (pageOracle rl) true st
      = (.ok [], { st with likedTracks := some [] }, [(1, 0)]) ∧
    fetchPlaylistTracks (ε := ε) (pageOracle rp) pid true st
      = (.ok [], { st with playlistTracksCache :=
          fun k => if k = pid then some [] else st.playlistTracksCache k }, [(1, 0)]) ∧
    fetchAlbumTracks (ε := ε) (pageOracle ra) (.ok meta) aid true st
      = (.ok [], { st with albumTracksCache :=
          fun k => if k = aid then some [] else st.albumTracksCache k }, [(1, 0)]) := by
  rw [List.length_eq_zero.mp hl, List.length_eq_zero.mp hp, List.length_eq_zero.mp ha]
  refine ⟨rfl, rfl, rfl, rfl, rfl, rfl⟩

/-- Witness for `c6_zero_total`: the empty remote collections. -/
theorem c6_zero_total_witness :
    ((([] : List SavedTrackItem).length = 0) ∧
      getAllLikedTracks (ε := Unit) (pageOracle ([] : List SavedTrackItem)) 50
        = (.ok [], [(1, 0)], [])) :=
  ⟨rfl,
    (c6_zero_total (ε := Unit) [] [] [] 50 demoMeta "p1" "al1"
      ⟨none, fun _ => none, fun _ => none⟩ rfl rfl rfl).1⟩

/-- C1: for every collection (liked tracks, a playlist's tracks by id, an
album's tracks by id), a fetch with `forceRefresh = false` on a state that
already holds an entry for the key returns the stored sequence unchanged,
leaves the state unchanged and issues no page request (the result does not
depend on the oracles at all, and the request log is empty); consequently
two consecutive such fetches with no intervening force-refresh or clear
return identical sequences, the second one with no network sweep. -/
theorem c1_cache_hit {ε : Type} (pageOL : Nat → Nat → Except ε (Page SavedTrackItem))
    (pageOP : Nat → Nat → Except ε (Page PlaylistItem))
    (pageOA : Nat → Nat → Except ε (Page AlbumTrack))
    (metaO : Except ε AlbumMeta) (pid aid : String) (st : CacheState) :
    (∀ ts, st.likedTracks = some ts →
      fetchLikedTracks pageOL false st = (.ok ts, st, [])) ∧
    (∀ ts, st.playlistTracksCache pid = some ts →
      fetchPlaylistTracks pageOP pid false st = (.ok ts, st, [])) ∧
    (∀ ts, st.albumTracksCache aid = some ts →
      fetchAlbumTracks pageOA metaO aid false st = (.ok ts, st, [])) ∧
    (∀ ts, (fetchLikedTracks pageOL false st).1 = .ok ts →
      fetchLikedTracks pageOL false (fetchLikedTracks pageOL false st).2.1
        = (.ok ts, (fetchLikedTracks pageOL false st).2.1, [])) ∧
    (∀ ts, (fetchPlaylistTracks pageOP pid false st).1 = .ok ts →
      fetchPlaylistTracks pageOP pid false (fetchPlaylistTracks pageOP pid false st).2.1
        = (.ok ts, (fetchPlaylistTracks pageOP pid false st).2.1, [])) ∧
    (∀ ts, (fetchAlbumTracks pageOA metaO aid false st).1 = .ok ts →
      fetchAlbumTracks pageOA metaO aid false (fetchAlbumTracks pageOA metaO aid false st).2.1
        = (.ok ts, (fetchAlbumTracks pageOA metaO aid false st).2.1, [])) := by
  refine ⟨?_, ?_, ?_, ?_, ?_, ?_⟩
  · intro ts h
    simp [fetchLikedTracks, h]
  · intro ts h
    simp [fetchPlaylistTracks, h]
  · intro ts h
    simp [fetchAlbumTracks, h]
  · intro ts h
    cases hL : st.likedTracks with
    | some ts0 =>
      have h1 : fetchLikedTracks pageOL false st = (.ok ts0, st, []) := by
        simp [fetchLikedTracks, hL]
      rw [h1] at h ⊢
      simp only at h
      cases h
      simp [fetchLikedTracks, hL]
    | none =>
      rcases hG : getAllLikedTracks pageOL 50 with ⟨res, reqs, progs⟩
      cases res with
      | ok tracks =>
        have h1 : fetchLikedTracks pageOL false st
            = (.ok tracks, { st with likedTracks := some tracks }, reqs) := by
          simp [fetchLikedTracks, hL, hG]
        rw [h1] at h ⊢
        simp only at h
        cases h
        simp [fetchLikedTracks]
      | error e =>
        have h1 : fetchLikedTracks pageOL false st = (.error e, st, reqs) := by
          simp [fetchLikedTracks, hL, hG]
        rw [h1] at h
        simp at h
  · intro ts h
    cases hP : st.playlistTracksCache pid with
    | some ts0 =>
      have h1 : fetchPlaylistTracks pageOP pid false st = (.ok ts0, st, []) := by
        simp [fetchPlaylistTracks, hP]
      rw [h1] at h ⊢
      simp only at h
      cases h
      simp [fetchPlaylistTracks, hP]
    | none =>
      rcases hG : getAllPlaylistTracks pageOP 100 with ⟨res, reqs, progs⟩
      cases res with
      | ok items =>
        have h1 : fetchPlaylistTracks pageOP pid false st
            = (.ok (items.map (fun item => item.track)),
               { st with playlistTracksCache :=
                   fun k => if k = pid then some (items.map (fun item => item.track))
                     else st.playlistTracksCache k }, reqs) := by
          simp [fetchPlaylistTracks, hP, hG]
        rw [h1] at h ⊢
        simp only at h
        cases h
        simp [fetchPlaylistTracks]
      | error e =>
        have h1 : fetchPlaylistTracks pageOP pid false st = (.error e, st, reqs) := by
          simp [fetchPlaylistTracks, hP, hG]
        rw [h1] at h
        simp at h
  · intro ts h
    cases hA : st.albumTracksCache aid with
    | some ts0 =>
      have h1 : fetchAlbumTracks pageOA metaO aid false st = (.ok ts0, st, []) := by
        simp [fetchAlbumTracks, hA]
      rw [h1] at h ⊢
      simp only at h
      cases h
      simp [fetchAlbumTracks, hA]
    | none =>
      rcases hG : getAllAlbumTracks pageOA 50 with ⟨res, reqs, progs⟩
      cases res with
      | ok albumTracks =>
        cases hM : metaO with
        | ok albumResponse =>
          have h1 : fetchAlbumTracks pageOA (.ok albumResponse) aid false st
              = (.ok (albumTracks.map (fun track =>
                  { id := track.id, name := track.name, artists := track.artists,
                    album := { id := aid, name := albumResponse.name,
                               images := albumResponse.images },
                    duration_ms := track.duration_ms : Track })),
                 { st with albumTracksCache :=
                     fun k => if k = aid
                       then some (albumTracks.map (fun track =>
                         { id := track.id, name := track.name, artists := track.artists,
                           album := { id := aid, name := albumResponse.name,
                                      images := albumResponse.images },
                           duration_ms := track.duration_ms : Track }))
                       else st.albumTracksCache k }, reqs) := by
            simp [fetchAlbumTracks, hA, hG]
          rw [hM] at h
          rw [h1] at h ⊢
          simp only at h
          cases h
          simp [fetchAlbumTracks]
        | error e =>
          have h1 : fetchAlbumTracks pageOA (.error e) aid false st = (.error e, st, reqs) := by
            simp [fetchAlbumTracks, hA, hG]
          rw [hM] at h
          rw [h1] at h
          simp at h
      | error e =>
        have h1 : fetchAlbumTracks pageOA metaO aid false st = (.error e, st, reqs) := by
          simp [fetchAlbumTracks, hA, hG]
        rw [h1] at h
        simp at h

/-- Sample cache state holding an entry for every collection key used by the
witnesses. -/
def demoCacheState : CacheState :=
  ⟨some [demoTrack],
   fun k => if k = "p1" then some [demoTrack] else none,
   fun k => if k = "al1" then some [demoTrack] else none⟩

/-- Witness for `c1_cache_hit`: a state with a stored liked-tracks entry is
returned verbatim with an empty request log. -/
theorem c1_cache_hit_witness :
    demoCacheState.likedTracks = some [demoTrack] ∧
    fetchLikedTracks (ε := Unit) (pageOracle demoSaved) false demoCacheState
      = (.ok [demoTrack], demoCacheState, []) :=
  ⟨rfl,
    (c1_cache_hit (pageOracle demoSaved) (pageOracle demoPlaylistItems)
      (pageOracle demoAlbumTracks) (.ok demoMeta) "p1" "al1" demoCacheState).1
      [demoTrack] rfl⟩

/-- C3: for every collection key, when the sweep (or, for albums, the
decorating metadata read) fails, the fetch returns exactly that failure, the
previously stored cache state is left untouched and no partial sequence
becomes visible; the stored entry is replaced — with the full sweep result —
only when the whole sweep (and metadata read) succeeds.  The cache-miss
condition (`forceRefresh` true or no stored entry) says the sweep actually
runs. -/
theorem c3_failure_atomicity {ε : Type}
    (pageOL : Nat → Nat → Except ε (Page SavedTrackItem))
    (pageOP : Nat → Nat → Except ε (Page PlaylistItem))
    (pageOA : Nat → Nat → Except ε (Page AlbumTrack))
    (metaO : Except ε AlbumMeta) (pid aid : String) (force : Bool) (st : CacheState) :
    (∀ e, (force = true ∨ st.likedTracks = none) →
      (getAllLikedTracks pageOL 50).1 = .error e →
      fetchLikedTracks pageOL force st = (.error e, st, (getAllLikedTracks pageOL 50).2.1)) ∧
    (∀ ts, (force = true ∨ st.likedTracks = none) →
      (getAllLikedTracks pageOL 50).1 = .ok ts →
      fetchLikedTracks pageOL force st
        = (.ok ts, { st with likedTracks := some ts }, (getAllLikedTracks pageOL 50).2.1)) ∧
    (∀ e, (force = true ∨ st.playlistTracksCache pid = none) →
      (getAllPlaylistTracks pageOP 100).1 = .error e →
      fetchPlaylistTracks pageOP pid force st
        = (.error e, st, (getAllPlaylistTracks pageOP 100).2.1)) ∧
    (∀ items, (force = true ∨ st.playlistTracksCache pid = none) →
      (getAllPlaylistTracks pageOP 100).1 = .ok items →
      fetchPlaylistTracks pageOP pid force st
        = (.ok (items.map (fun item => item.track)),
           { st with playlistTracksCache :=
               fun k => if k = pid then some (items.map (fun item => item.track))
                 else st.playlistTracksCache k },
           (getAllPlaylistTracks pageOP 100).2.1)) ∧
    (∀ e, (force = true ∨ st.albumTracksCache aid = none) →
      (getAllAlbumTracks pageOA 50).1 = .error e →
      fetchAlbumTracks pageOA metaO aid force st
        = (.error e, st, (getAllAlbumTracks pageOA 50).2.1)) ∧
    (∀ e albumTracks, (force = true ∨ st.albumTracksCache aid = none) →
      (getAllAlbumTracks pageOA 50).1 = .ok albumTracks →
      metaO = .error e →
      fetchAlbumTracks pageOA metaO aid force st
        = (.error e, st, (getAllAlbumTracks pageOA 50).2.1)) ∧
    (∀ albumTracks albumResponse, (force = true ∨ st.albumTracksCache aid = none) →
      (getAllAlbumTracks pageOA 50).1 = .ok albumTracks →
      metaO = .ok albumResponse →
      fetchAlbumTracks pageOA metaO aid force st
        = (.ok (albumTracks.map (fun track =>
            { id := track.id, name := track.name, artists := track.artists,
              album := { id := aid, name := albumResponse.name,
                         images := albumResponse.images },
              duration_ms := track.duration_ms : Track })),
           { st with albumTracksCache :=
               fun k => if k = aid
                 then some (albumTracks.map (fun track =>
                   { id := track.id, name := track.name, artists := track.artists,
                     album := { id := aid, name := albumResponse.name,
                                images := albumResponse.images },
                     duration_ms := track.duration_ms : Track }))
                 else st.albumTracksCache k },
           (getAllAlbumTracks pageOA 50).2.1)) := by
  refine ⟨?_, ?_, ?_, ?_, ?_, ?_, ?_⟩
  · intro e hc hG
    rcases hGe : getAllLikedTracks pageOL 50 with ⟨res, reqs, progs⟩
    rw [hGe] at hG
    simp only at hG
    subst hG
    rcases hc with hc | hc
    · subst hc
      simp [fetchLikedTracks, hGe]
    · cases force <;> simp [fetchLikedTracks, hc, hGe]
  · intro ts hc hG
    rcases hGe : getAllLikedTracks pageOL 50 with ⟨res, reqs, progs⟩
    rw [hGe] at hG
    simp only at hG
    subst hG
    rcases hc with hc | hc
    · subst hc
      simp [fetchLikedTracks, hGe]
    · cases force <;> simp [fetchLikedTracks, hc, hGe]
  · intro e hc hG
    rcases hGe : getAllPlaylistTracks pageOP 100 with ⟨res, reqs, progs⟩
    rw [hGe] at hG
    simp only at hG
    subst hG
    rcases hc with hc | hc
    · subst hc
      simp [fetchPlaylistTracks, hGe]
    · cases force <;> simp [fetchPlaylistTracks, hc, hGe]
  · intro items hc hG
    rcases hGe : getAllPlaylistTracks pageOP 100 with ⟨res, reqs, progs⟩
    rw [hGe] at hG
    simp only at hG
    subst hG
    rcases hc with hc | hc
    · subst hc
      simp [fetchPlaylistTracks, hGe]
    · cases force <;> simp [fetchPlaylistTracks, hc, hGe]
  · intro e hc hG
    rcases hGe : getAllAlbumTracks pageOA 50 with ⟨res, reqs, progs⟩
    rw [hGe] at hG
    simp only at hG
    subst hG
    rcases hc with hc | hc
    · subst hc
      simp [fetchAlbumTracks, hGe]
    · cases force <;> simp [fetchAlbumTracks, hc, hGe]
  · intro e albumTracks hc hG hM
    subst hM
    rcases hGe : getAllAlbumTracks pageOA 50 with ⟨res, reqs, progs⟩
    rw [hGe] at hG
    simp only at hG
    subst hG
    rcases hc with hc | hc
    · subst hc
      simp [fetchAlbumTracks, hGe]
    · cases force <;> simp [fetchAlbumTracks, hc, hGe]
  · intro albumTracks albumResponse hc hG hM
    subst hM
    rcases hGe : getAllAlbumTracks pageOA 50 with ⟨res, reqs, progs⟩
    rw [hGe] at hG
    simp only at hG
    subst hG
    rcases hc with hc | hc
    · subst hc
      simp [fetchAlbumTracks, hGe]
    · cases force <;> simp [fetchAlbumTracks, hc, hGe]

/-- A page oracle that fails at every request, standing for a mid-sweep
network failure. -/
def failingOracle {σ : Type} : Nat → Nat → Except String (Page σ) :=
  fun _ _ => .error "network down"

/-- Witness for `c3_failure_atomicity`: a failing sweep over the liked
collection propagates the failure and leaves a populated cache state
unchanged. -/
theorem c3_failure_atomicity_witness :
    ((true = true ∨ demoCacheState.likedTracks = none) ∧
      (getAllLikedTracks (failingOracle (σ := SavedTrackItem)) 50).1 = .error "network down") ∧
    fetchLikedTracks (failingOracle (σ := SavedTrackItem)) true demoCacheState
      = (.error "network down", demoCacheState,
         (getAllLikedTracks (failingOracle (σ := SavedTrackItem)) 50).2.1) :=
  ⟨⟨Or.inl rfl, rfl⟩,
    (c3_failure_atomicity (failingOracle (σ := SavedTrackItem))
      (failingOracle (σ := PlaylistItem)) (failingOracle (σ := AlbumTrack))
      (.error "network down") "p1" "al1" true demoCacheState).1
      "network down" (Or.inl rfl) rfl⟩

/-!
Downloads-page claims.
-/

/-- Sample task already in the terminal `Completed` status. -/
def demoCompletedTask : Download :=
  ⟨"d1", "Song", none, none, "Artist - Song", 100, .completed, none,
   some "/x/y.flac", false, none, none, none, ["log1"]⟩

/-- A late lifecycle-event payload for the same task id carrying a
non-terminal status. -/
def demoLatePayload : Download :=
  { demoCompletedTask with status := .inProgress }

/-- C4 counterexample: a task already `Completed` receives a late
`download:progress` event whose payload carries `InProgress`; the listener
replaces the record with the payload, so the status leaves the terminal
state — contradicting the claim that no event applied to a terminal task
changes its status. -/
theorem c4_counterexample :
    demoCompletedTask.status = DownloadStatus.completed ∧
    applyDownloadEvent demoLatePayload [demoCompletedTask] = [demoLatePayload] ∧
    demoLatePayload.status = DownloadStatus.inProgress := by
  decide

/-- C4 (amended): a task — terminal or not — is left unchanged by
`progress` / `completed` / `failed` / `canceled` events whose payload id
differs from its own, and by raw stdout-line events when it is terminal;
but a lifecycle event whose payload id matches replaces the task's record
wholesale with the payload, so its status becomes the payload's status even
when the task was already in a terminal state. -/
theorem c4_terminal_events (payload : Download) (line : String) (ds : List Download) :
    List.Forall₂ (fun d d2 =>
        (d.id = payload.id → d2 = payload) ∧ (d.id ≠ payload.id → d2 = d))
      ds (applyDownloadEvent payload ds) ∧
    List.Forall₂ (fun d d2 => isActiveStatus d.status = false → d2 = d)
      ds (applyStdoutEvent line ds) := by
  constructor
  · unfold applyDownloadEvent
    rw [List.forall₂_map_right_iff, List.forall₂_same]
    intro d hd
    by_cases hid : d.id = payload.id
    · simp [hid]
    · simp [hid]
  · unfold applyStdoutEvent
    rw [List.forall₂_map_right_iff, List.forall₂_same]
    intro d hd
    cases hact : isActiveStatus d.status with
    | false => simp [hact]
    | true => simp [hact]

/-- C8: one raw `sldl:stdout` event appends the line to the console log of
every task not yet in a terminal status — whichever task the line belongs
to — leaves every terminal task's record entirely unchanged, and is
append-only: each task's previous console log is an unchanged initial
segment of its new one. -/
theorem c8_stdout_append (line : String) (ds : List Download) :
    List.Forall₂ (fun d d2 =>
        (isActiveStatus d.status = true →
          d2 = { d with console_logs := d.console_logs ++ [line] }) ∧
        (isActiveStatus d.status = false → d2 = d) ∧
        ∃ rest, d2.console_logs = d.console_logs ++ rest)
      ds (applyStdoutEvent line ds) := by
  unfold applyStdoutEvent
  rw [List.forall₂_map_right_iff, List.forall₂_same]
  intro d hd
  cases hact : isActiveStatus d.status with
  | false =>
    refine ⟨by simp [hact], by simp [hact], ⟨[], by simp [hact]⟩⟩
  | true =>
    refine ⟨by simp [hact], by simp [hact], ⟨[line], by simp [hact]⟩⟩

/-!
Token-lifecycle claims.
-/

/-- Stored credentials whose access token has expired (at clock 10) and
which still hold a refresh token. -/
def staleCredentials : Credentials :=
  ⟨none, none, some "expired-token", some "refresh-token", some 5⟩

/-- Credentials as persisted by a successful refresh exchange. -/
def freshCredentials : Credentials :=
  ⟨none, none, some "new-token", some "new-refresh", some 99999⟩

/-- The memoised handle built from the (meanwhile expired) stored
credentials on an earlier call. -/
def staleApi : SpotifyApiHandle :=
  ⟨"client", "expired-token", "Bearer", 3600, "refresh-token"⟩

/-- C5 counterexample: with an expired access token, a refresh token
present and a failing refresh call, `initializeSpotify` does return absent —
but the persisted credentials after the call still hold the expired access
token, so the stale token is not cleared as the claim states. -/
theorem c5_counterexample :
    (isTokenExpired staleCredentials.spotify_token_expires_at 10 = true ∧
      truthy staleCredentials.spotify_refresh_token = true) ∧
    initializeSpotify "client" staleCredentials none 10 none
      = ⟨none, none, staleCredentials, true⟩ ∧
    staleCredentials.spotify_access_token ≠ none := by
  decide

/-- C5 (amended): when the stored access token is expired, a refresh token
is present and the refresh call fails, `initializeSpotify` attempts the
refresh, returns absent and creates no in-memory instance — but the
persisted credentials are left exactly as they were, stale tokens included
(they are cleared only by an explicit logout). -/
theorem c5_refresh_failure (clientId : String) (stored : Credentials) (now : Int)
    (h1 : truthy stored.spotify_access_token = true)
    (h2 : isTokenExpired stored.spotify_token_expires_at now = true)
    (h3 : truthy stored.spotify_refresh_token = true) :
    initializeSpotify clientId stored none now none = ⟨none, none, stored, true⟩ := by
  simp [initializeSpotify, h1, h2, h3]

/-- Witness for `c5_refresh_failure` at the concrete stale credentials. -/
theorem c5_refresh_failure_witness :
    (truthy staleCredentials.spotify_access_token = true ∧
      isTokenExpired staleCredentials.spotify_token_expires_at 10 = true ∧
      truthy staleCredentials.spotify_refresh_token = true) ∧
    initializeSpotify "client" staleCredentials none 10 none
      = ⟨none, none, staleCredentials, true⟩ :=
  ⟨⟨by decide, by decide, by decide⟩,
    c5_refresh_failure "client" staleCredentials 10 (by decide) (by decide) (by decide)⟩

/-- C9 counterexample: the singleton instance is returned unconditionally —
here the stored credentials are expired (5 < 10) and a refresh token is
available, yet the call returns the memoised handle as-is with no refresh
attempt. -/
theorem c9_counterexample :
    (isTokenExpired staleCredentials.spotify_token_expires_at 10 = true ∧
      truthy staleCredentials.spotify_refresh_token = true) ∧
    initializeSpotify "client" staleCredentials (some freshCredentials) 10 (some staleApi)
      = ⟨some staleApi, some staleApi, staleCredentials, false⟩ := by
  decide

/-- C9 (amended): when no in-memory instance exists, an unexpired stored
token is wrapped and returned without a refresh, and an expired stored
token with a refresh token present triggers a refresh attempt before any
token is returned; but when the in-memory singleton is set, it is returned
as-is with no expiry check and no refresh, so a repeated call can hand back
an expired cached token unless the singleton is reset
(`resetSpotifyApi`) first. -/
theorem c9_cached_token (clientId : String) (stored : Credentials)
    (refreshOutcome : Option Credentials) (now : Int) :
    (∀ a, initializeSpotify clientId stored refreshOutcome now (some a)
        = ⟨some a, some a, stored, false⟩) ∧
    (truthy stored.spotify_access_token = true →
      isTokenExpired stored.spotify_token_expires_at now = false →
      initializeSpotify clientId stored refreshOutcome now none
        = ⟨some (withAccessToken clientId stored),
           some (withAccessToken clientId stored), stored, false⟩) ∧
    (truthy stored.spotify_access_token = true →
      isTokenExpired stored.spotify_token_expires_at now = true →
      truthy stored.spotify_refresh_token = true →
      (initializeSpotify clientId stored refreshOutcome now none).refreshAttempted = true) := by
  refine ⟨?_, ?_, ?_⟩
  · intro a
    simp [initializeSpotify]
  · intro h1 h2
    simp [initializeSpotify, h1, h2]
  · intro h1 h2 h3
    cases refreshOutcome with
    | none => simp [initializeSpotify, h1, h2, h3]
    | some u =>
      by_cases hu : truthy u.spotify_access_token = false
      · simp [initializeSpotify, h1, h2, h3, hu]
      · simp [initializeSpotify, h1, h2, h3, hu]

/-- Witness for `c9_cached_token`: an unexpired stored token is returned
wrapped, with no refresh. -/
theorem c9_cached_token_witness :
    (truthy freshCredentials.spotify_access_token = true ∧
      isTokenExpired freshCredentials.spotify_token_expires_at 10 = false) ∧
    initializeSpotify "client" freshCredentials none 10 none
      = ⟨some (withAccessToken "client" freshCredentials),
         some (withAccessToken "client" freshCredentials), freshCredentials, false⟩ :=
  ⟨⟨by decide, by decide⟩,
    (c9_cached_token "client" freshCredentials none 10).2.1 (by decide) (by decide)⟩

/-- C10: when the stored credentials carry an access token but no
`expires_at` timestamp, `initializeSpotify` treats the token as expired: it
attempts a refresh when a refresh token is present, returns absent without
any refresh call when none is, and never returns a token without having
attempted a refresh first. -/
theorem c10_missing_expiry (clientId : String) (stored : Credentials)
    (refreshOutcome : Option Credentials) (now : Int)
    (hTok : truthy stored.spotify_access_token = true)
    (hExp : stored.spotify_token_expires_at = none) :
    (truthy stored.spotify_refresh_token = true →
      (initializeSpotify clientId stored refreshOutcome now none).refreshAttempted = true) ∧
    (truthy stored.spotify_refresh_token = false →
      initializeSpotify clientId stored refreshOutcome now none
        = ⟨none, none, stored, false⟩) ∧
    ((initializeSpotify clientId stored refreshOutcome now none).refreshAttempted = false →
      (initializeSpotify clientId stored refreshOutcome now none).result = none) := by
  have hexp : isTokenExpired stored.spotify_token_expires_at now = true := by
    rw [hExp]
    rfl
  refine ⟨?_, ?_, ?_⟩
  · intro hr
    cases refreshOutcome with
    | none => simp [initializeSpotify, hTok, hexp, hr]
    | some u =>
      by_cases hu : truthy u.spotify_access_token = false
      · simp [initializeSpotify, hTok, hexp, hr, hu]
      · simp [initializeSpotify, hTok, hexp, hr, hu]
  · intro hr
    simp [initializeSpotify, hTok, hexp, hr]
  · intro h
    cases hr : truthy stored.spotify_refresh_token with
    | true =>
      exfalso
      cases refreshOutcome with
      | none => simp [initializeSpotify, hTok, hexp, hr] at h
      | some u =>
        by_cases hu : truthy u.spotify_access_token = false
        · simp [initializeSpotify, hTok, hexp, hr, hu] at h
        · simp [initializeSpotify, hTok, hexp, hr, hu] at h
    | false =>
      simp [initializeSpotify, hTok, hexp, hr]

/-- Stored credentials with an access and refresh token but no expiry
timestamp. -/
def expiryLessCredentials : Credentials :=
  ⟨none, none, some "token", some "refresh", none⟩

/-- Witness for `c10_missing_expiry`: an expiry-less token with a refresh
token present triggers a refresh attempt. -/
theorem c10_missing_expiry_witness :
    (truthy expiryLessCredentials.spotify_access_token = true ∧
      expiryLessCredentials.spotify_token_expires_at = none ∧
      truthy expiryLessCredentials.spotify_refresh_token = true) ∧
    (initializeSpotify "client" expiryLessCredentials none 1000 none).refreshAttempted
      = true :=
  ⟨⟨by decide, rfl, by decide⟩,
    (c10_missing_expiry "client" expiryLessCredentials none 1000 (by decide) rfl).1
      (by decide)⟩

/-- A fully logged-in provider state. -/
def demoSession : ProviderState :=
  ⟨staleCredentials, some staleApi, true, some staleApi⟩

/-- C7 counterexample: when the persistence I/O of `logout` fails, the
exception jumps to the `catch` before `resetSpotifyApi()` and the state
updates run, so the in-memory session is NOT cleared — the singleton is
still set and the caller still appears authenticated, contradicting the
claim that logout always succeeds in memory. -/
theorem c7_counterexample :
    logout true demoSession = demoSession ∧
    (logout true demoSession).apiSingleton = some staleApi ∧
    (logout true demoSession).isAuthenticated = true := by
  decide

/-- C7 (amended): `logout` never raises to its caller (the catch only
logs); when the persistence I/O succeeds it clears the persisted Spotify
tokens, the singleton and the authenticated state; but when the persistence
I/O fails, the whole in-memory session is left exactly as it was — nothing
is cleared. -/
theorem c7_logout (st : ProviderState) :
    logout false st = ⟨clearSpotifyTokens st.stored, none, false, none⟩ ∧
    logout true st = st :=
  ⟨rfl, rfl⟩

/-- Witness for `c7_logout` at the concrete logged-in session. -/
theorem c7_logout_witness :
    logout false demoSession
      = ⟨clearSpotifyTokens demoSession.stored, none, false, none⟩ ∧
    logout true demoSession = demoSession :=
  c7_logout demoSession

/-- Witness for `c4_terminal_events` at a concrete terminal task and late
payload. -/
theorem c4_terminal_events_witness :
    List.Forall₂ (fun d d2 =>
        (d.id = demoLatePayload.id → d2 = demoLatePayload) ∧
        (d.id ≠ demoLatePayload.id → d2 = d))
      [demoCompletedTask] (applyDownloadEvent demoLatePayload [demoCompletedTask]) ∧
    List.Forall₂ (fun d d2 => isActiveStatus d.status = false → d2 = d)
      [demoCompletedTask] (applyStdoutEvent "line" [demoCompletedTask]) :=
  c4_terminal_events demoLatePayload "line" [demoCompletedTask]

/-- Witness for `c8_stdout_append` at a concrete task list. -/
theorem c8_stdout_append_witness :
    List.Forall₂ (fun d d2 =>
        (isActiveStatus d.status = true →
          d2 = { d with console_logs := d.console_logs ++ ["line"] }) ∧
        (isActiveStatus d.status = false → d2 = d) ∧
        ∃ rest, d2.console_logs = d.console_logs ++ rest)
      [demoCompletedTask] (applyStdoutEvent "line" [demoCompletedTask]) :=
  c8_stdout_append "line" [demoCompletedTask]

end Soulshark
